import Mathlib

/-!
Verification of the NewUpload worksheet component
(`frontend/src/components/worksheets/NewUpload/NewUpload.jsx`).

The component's pure helpers (`getQueryParams`, the tag-chip handlers, the
`Clear` button's state update) are embedded directly as Lean functions.  The
two-phase upload flow (`uploadFile`) is embedded as a function from the
component props, the selected file and the outcomes of the two HTTP calls to
the component state and the list of observable events (requests issued,
alerts raised, worksheet reloads), in the order they occur.

The helper utilities imported from `util/worksheet_utils`
(`createDefaultBundleName`, `pathIsArchive`, `getArchiveExt`,
`getDefaultBundleMetadata`, `createAlertText`) are not part of this source
fragment; they are modelled from the specification, as noted on each.
-/

namespace NewUpload

/-- Modelled from the spec: the set of recognized archive extensions used by
`pathIsArchive` and `getArchiveExt` (the spec names `.zip` as an archive and
`.txt` as a non-archive; the utility itself is outside this fragment). -/
def ARCHIVE_EXTS : List String := [".tar.gz", ".tgz", ".tar.bz2", ".zip", ".gz"]

/-- Suffix test on strings, computed on the underlying character lists so
that the kernel can evaluate it. -/
def strEndsWith (path ext : String) : Bool :=
  List.isSuffixOf ext.data path.data

/-- Removal of the last `n` characters of a string, computed on the
underlying character list. -/
def strDropRight (s : String) (n : Nat) : String :=
  ⟨s.data.take (s.data.length - n)⟩

/-- Modelled from the spec: a filename is an archive exactly when it ends in a
recognized archive extension. -/
def pathIsArchive (path : String) : Bool :=
  ARCHIVE_EXTS.any (fun ext => strEndsWith path ext)

/-- Modelled from the spec: the recognized archive extension at the end of the
filename (empty when the filename is not an archive). -/
def getArchiveExt (path : String) : String :=
  ((ARCHIVE_EXTS.filter (fun ext => strEndsWith path ext)).head?).getD ""

/-- Modelled from the spec: the derived default bundle name for a filename.
The spec requires only that for an archive the upload filename is this name
with the archive extension appended back (preserving e.g. a `.zip` suffix),
and that a non-archive filename keeps its extension unmodified; so the
derived name strips a recognized archive extension and keeps anything else. -/
def createDefaultBundleName (name : String) : String :=
  if pathIsArchive name then strDropRight name (getArchiveExt name).length
  else name

/-- The query-parameter object built by `getQueryParams` before
`$.param` serialization (source lines 50-56). -/
structure QueryParams where
  finalize : Nat
  filename : String
  unpack : Nat
deriving Repr, DecidableEq

/-- `getQueryParams` (source lines 48-58), up to `$.param` serialization:
the object `\x7b finalize, filename, unpack \x7d` it passes to `$.param`. -/
def getQueryParams (filename : String) : QueryParams :=
  let formattedFilename := createDefaultBundleName filename
  { finalize := 1
    filename := if pathIsArchive filename
      then formattedFilename ++ getArchiveExt filename
      else formattedFilename
    unpack := if pathIsArchive filename then 1 else 0 }

/-- `$.param` on the query object: keys in object insertion order
(`finalize`, `filename`, `unpack`), joined with `&`. -/
def paramString (q : QueryParams) : String :=
  "finalize=" ++ toString q.finalize ++
  "&filename=" ++ q.filename ++
  "&unpack=" ++ toString q.unpack

/-- The component's form state: `url` plus the configuration fields `name`,
`description`, `tags` (source lines 69-77).  The constructor initializes only
the three `defaultConfig` fields, so `url` starts out undefined; the
undefined value is modelled as `none`. -/
structure ComponentState where
  name : String
  description : String
  tags : List String
  url : Option String
deriving Repr, DecidableEq

/-- A partial state update, as passed to React's `setState`: absent keys
(`none`) leave the corresponding field untouched. -/
structure StateUpdate where
  name : Option String := none
  description : Option String := none
  tags : Option (List String) := none
  url : Option (Option String) := none

/-- React's `setState` with an object argument: a shallow merge of the given
keys into the current state. -/
def setState (s : ComponentState) (u : StateUpdate) : ComponentState :=
  { name := u.name.getD s.name
    description := u.description.getD s.description
    tags := u.tags.getD s.tags
    url := u.url.getD s.url }

/-- `defaultConfig` (source lines 79-83): keys `name`, `description`, `tags`
only; there is no `url` key. -/
def defaultConfig : StateUpdate :=
  { name := some "untitled-upload"
    description := some ""
    tags := some [] }

/-- The constructor's initial state `\x7b ...this.defaultConfig \x7d`
(source lines 89-94): the `defaultConfig` fields, `url` left undefined. -/
def initialState : ComponentState :=
  { name := "untitled-upload", description := "", tags := [], url := none }

/-- The Clear button's `onClick`, `this.setState(this.defaultConfig)`
(source line 233): the clear-form operation. -/
def clearForm (s : ComponentState) : ComponentState :=
  setState s defaultConfig

/-- `ConfigChipInput.onValueAdd` (source lines 278-280): append the new tag
at the end, `[...state.tags, value]`. -/
def onValueAdd (tags : List String) (value : String) : List String :=
  tags ++ [value]

/-- `ConfigChipInput.onValueDelete` (source lines 281-283):
`[...state.tags.slice(0, idx), ...state.tags.slice(idx+1)]`. -/
def onValueDelete (tags : List String) (idx : Nat) : List String :=
  tags.take idx ++ tags.drop (idx + 1)

/-- The component props used by `uploadFile` (source lines 60-68). -/
structure Props where
  worksheetUUID : String
  after_sort_key : String
deriving Repr, DecidableEq

/-- A selected file: its name and its byte content (the bytes the
`FileReader` delivers to the PUT request). -/
structure SelectedFile where
  name : String
  content : List Nat
deriving Repr, DecidableEq

/-- Modelled from the spec: `getDefaultBundleMetadata` of
`util/worksheet_utils` is outside this fragment; per the spec it constructs
the bundle-creation metadata from the filename (derived default name).  The
JSON body is modelled as the derived name it carries. -/
structure CreateBundleData where
  metadataName : String
deriving Repr, DecidableEq

/-- Modelled from the spec: the bundle-creation metadata derived from the
filename, serialized as the POST body. -/
def getDefaultBundleMetadata (name : String) : CreateBundleData :=
  { metadataName := createDefaultBundleName name }

/-- Modelled from the spec: `createAlertText` of `util/worksheet_utils` is
outside this fragment; per the spec it combines a URL and the server's raw
error response text (plus an optional suggested solution) into the alert
message.  It is modelled as the record of its arguments; a JavaScript
`undefined` argument is `none`. -/
structure AlertText where
  url : Option String
  responseText : String
  solution : Option String
deriving Repr, DecidableEq

/-- Modelled from the spec: `createAlertText(url, responseText, solution)`. -/
def createAlertText (url : Option String) (responseText : String)
    (solution : Option String) : AlertText :=
  { url := url, responseText := responseText, solution := solution }

/-- The observable effects of an upload attempt, in order of occurrence. -/
inductive Event where
  | postRequest (url : String) (body : CreateBundleData)
  | putRequest (url : String) (body : List Nat)
  | alertRaised (text : AlertText)
  | reloadWorksheet
deriving Repr, DecidableEq

/-- Whether an event is a raised alert. -/
def Event.isAlert : Event → Bool
  | .alertRaised _ => true
  | _ => false

/-- Whether an event is the `reloadWorksheet()` callback invocation. -/
def Event.isReload : Event → Bool
  | .reloadWorksheet => true
  | _ => false

/-- Whether an event is the content-upload PUT request. -/
def Event.isPut : Event → Bool
  | .putRequest _ _ => true
  | _ => false

/-- The outcomes the server gives the two HTTP calls of one upload attempt:
the metadata-creation POST either fails with a raw error response text or
succeeds with a response carrying `data[0].id`, the new bundle UUID; the
content-upload PUT either fails with a raw error response text or
succeeds. -/
structure ServerBehavior where
  postResult : Except String String
  putResult : Except String Unit

/-- The URL of the metadata-creation POST request (source line 136). -/
def postUrl (props : Props) : String :=
  "/rest/bundles?worksheet=" ++ props.worksheetUUID ++
    "&after_sort_key=" ++ props.after_sort_key

/-- The URL of the content-upload PUT request (source lines 173-177). -/
def putUrl (bundleUuid : String) (filename : String) : String :=
  "/rest/bundles/" ++ bundleUuid ++ "/contents/blob/?" ++
    paramString (getQueryParams filename)

/-- `uploadFile` (source lines 129-222), embedded as a function from the
props, the (possibly null) selected file, the component state and the
server's outcomes to the resulting component state and the ordered list of
observable events.  A null file returns immediately (lines 130-132).
Otherwise the POST is issued; on POST error the handler calls
`alert(createAlertText(this.url, jqHXR.responseText))` (line 219), where
`this.url` is an unassigned property of the component instance, hence
undefined (`none`).  On POST success the file is read and the PUT issued; on
PUT success `this.props.reloadWorksheet()` runs (line 202); on PUT error the
handler calls `alert(createAlertText(reader.url, jqHXR.responseText,
'refresh and try again.'))` (lines 206-212), where `reader.url` is an
unassigned property of the `FileReader`, hence undefined (`none`).  No
branch touches the component state. -/
def uploadFile (props : Props) (file : Option SelectedFile)
    (beh : ServerBehavior) (s : ComponentState) :
    ComponentState × List Event :=
  match file with
  | none => (s, [])
  | some f =>
    let createBundleData := getDefaultBundleMetadata f.name
    match beh.postResult with
    | .error responseText =>
        (s, [.postRequest (postUrl props) createBundleData,
             .alertRaised (createAlertText none responseText none)])
    | .ok bundleUuid =>
        match beh.putResult with
        | .ok _ =>
            (s, [.postRequest (postUrl props) createBundleData,
                 .putRequest (putUrl bundleUuid f.name) f.content,
                 .reloadWorksheet])
        | .error responseText =>
            (s, [.postRequest (postUrl props) createBundleData,
                 .putRequest (putUrl bundleUuid f.name) f.content,
                 .alertRaised (createAlertText none responseText
                   (some "refresh and try again."))])

/-- The events of an upload attempt. -/
def uploadEvents (props : Props) (file : Option SelectedFile)
    (beh : ServerBehavior) (s : ComponentState) : List Event :=
  (uploadFile props file beh s).2

end NewUpload

namespace NewUpload

/-- The claim C1 property, stated over `getQueryParams`. -/
theorem c1_query_params (filename : String) :
    (getQueryParams filename).finalize = 1 ∧
    ((getQueryParams filename).unpack = 1 ↔ pathIsArchive filename = true) ∧
    ((getQueryParams filename).unpack = 0 ↔ pathIsArchive filename = false) ∧
    (getQueryParams filename).filename =
      (if pathIsArchive filename
        then createDefaultBundleName filename ++ getArchiveExt filename
        else createDefaultBundleName filename) := by
  refine ⟨rfl, ?_, ?_, rfl⟩ <;>
    cases h : pathIsArchive filename <;> simp [getQueryParams, h]

/-- Claim C1 at concrete inputs: an archive (`data.zip`) and a plain file
(`notes.txt`). -/
theorem c1_query_params_witness :
    ((getQueryParams "data.zip").unpack = 1 ∧ (getQueryParams "data.zip").filename = "data.zip") ∧
    ((getQueryParams "notes.txt").unpack = 0 ∧ (getQueryParams "notes.txt").filename = "notes.txt") := by
  have h1 := c1_query_params "data.zip"
  have h2 := c1_query_params "notes.txt"
  refine ⟨⟨h1.2.1.mpr (by decide), ?_⟩, ⟨h2.2.2.1.mpr (by decide), ?_⟩⟩
  · rw [h1.2.2.2]; decide
  · rw [h2.2.2.2]; decide

/-- Claim C6 as stated is false: `defaultConfig` has no `url` key, so the
shallow-merging `setState` of the Clear button leaves a previously entered
`url` in place instead of resetting it.  Concretely, clearing from a state
whose `url` is `"http://x"` keeps that `url`, which is neither the empty
string nor the undefined value. -/
theorem c6_clear_form_counterexample :
    (clearForm ⟨"a", "b", ["c"], some "http://x"⟩).url = some "http://x" ∧
    clearForm ⟨"a", "b", ["c"], some "http://x"⟩ ≠
      ⟨"untitled-upload", "", [], some ""⟩ ∧
    clearForm ⟨"a", "b", ["c"], some "http://x"⟩ ≠
      ⟨"untitled-upload", "", [], none⟩ := by
  decide

/-- Claim C6 amended: from every prior component state, the clear-form
operation resets `name`, `description` and `tags` to their defaults
(`untitled-upload`, empty string, empty tag list) and leaves `url`
unchanged. -/
theorem c6_clear_form (s : ComponentState) :
    clearForm s = ⟨"untitled-upload", "", [], s.url⟩ := by
  rfl

/-- Claim C8: adding a tag and then deleting it by its index (the length of
the pre-add list, the position at which `onValueAdd` inserted it) returns
the tag list to exactly its pre-add contents, order included. -/
theorem c8_add_then_delete (tags : List String) (value : String) :
    onValueDelete (onValueAdd tags value) tags.length = tags := by
  simp [onValueAdd, onValueDelete, List.take_left, List.drop_eq_nil_of_le]

/-- Claim C10: tag deletion is total in the index.  Deleting at an index
greater than or equal to the list's length leaves the tag list unchanged,
and deleting at a valid index removes exactly the element at that index
(`List.eraseIdx`). -/
theorem c10_delete_total (tags : List String) (idx : Nat) :
    (tags.length ≤ idx → onValueDelete tags idx = tags) ∧
    (idx < tags.length → onValueDelete tags idx = tags.eraseIdx idx) := by
  constructor
  · intro h
    simp [onValueDelete, List.take_of_length_le h,
      List.drop_eq_nil_of_le (Nat.le_succ_of_le h)]
  · intro _
    simp [onValueDelete, List.eraseIdx_eq_take_drop_succ]

/-- Claim C10 at concrete inputs: deleting index 5 from a two-element list
leaves it unchanged, and deleting index 0 removes exactly the first tag. -/
theorem c10_delete_total_witness :
    onValueDelete ["a", "b"] 5 = ["a", "b"] ∧
    onValueDelete ["a", "b"] 0 = (["a", "b"] : List String).eraseIdx 0 := by
  exact ⟨(c10_delete_total ["a", "b"] 5).1 (by decide),
    (c10_delete_total ["a", "b"] 0).2 (by decide)⟩

/-- Claim C2: whenever a content-upload PUT request occurs in an upload
attempt's events, the metadata-creation POST resolved successfully (the
server returned a bundle UUID), and the events begin with the POST request
followed immediately by that PUT: the PUT is issued only from within the
POST success continuation, never before it. -/
theorem c2_put_only_after_post (props : Props) (file : Option SelectedFile)
    (beh : ServerBehavior) (s : ComponentState) (u : String) (b : List Nat)
    (h : Event.putRequest u b ∈ uploadEvents props file beh s) :
    (∃ bundleUuid, beh.postResult = Except.ok bundleUuid) ∧
    (∃ f rest, file = some f ∧
      uploadEvents props file beh s =
        Event.postRequest (postUrl props) (getDefaultBundleMetadata f.name) ::
          Event.putRequest u b :: rest) := by
  obtain ⟨pr, qr⟩ := beh
  cases file with
  | none => simp [uploadEvents, uploadFile] at h
  | some f =>
    cases pr with
    | error e => simp [uploadEvents, uploadFile] at h
    | ok bundleUuid =>
      cases qr with
      | ok v =>
        simp only [uploadEvents, uploadFile, List.mem_cons,
          List.not_mem_nil, or_false, reduceCtorEq, false_or] at h
        obtain ⟨hu, hb⟩ := Event.putRequest.inj h
        exact ⟨⟨bundleUuid, rfl⟩, f, [Event.reloadWorksheet],
          rfl, by simp [uploadEvents, uploadFile, hu, hb]⟩
      | error e =>
        simp only [uploadEvents, uploadFile, List.mem_cons,
          List.not_mem_nil, or_false, reduceCtorEq, false_or] at h
        obtain ⟨hu, hb⟩ := Event.putRequest.inj h
        exact ⟨⟨bundleUuid, rfl⟩, f,
          [Event.alertRaised (createAlertText none e
            (some "refresh and try again."))],
          rfl, by simp [uploadEvents, uploadFile, hu, hb]⟩

/-- Claim C2 at a concrete input: a successful attempt issues the PUT, the
POST resolved `ok`, and the events start POST then PUT. -/
theorem c2_put_only_after_post_witness :
    (∃ bundleUuid,
      (ServerBehavior.mk (Except.ok "0xb") (Except.ok ())).postResult =
        Except.ok bundleUuid) ∧
    (∃ f rest, (some (SelectedFile.mk "data.zip" [1, 2])) = some f ∧
      uploadEvents ⟨"0xws", "0"⟩ (some (SelectedFile.mk "data.zip" [1, 2]))
          ⟨Except.ok "0xb", Except.ok ()⟩ initialState =
        Event.postRequest (postUrl ⟨"0xws", "0"⟩)
            (getDefaultBundleMetadata f.name) ::
          Event.putRequest (putUrl "0xb" "data.zip") [1, 2] :: rest) :=
  c2_put_only_after_post ⟨"0xws", "0"⟩ (some ⟨"data.zip", [1, 2]⟩)
    ⟨Except.ok "0xb", Except.ok ()⟩ initialState
    (putUrl "0xb" "data.zip") [1, 2] (by decide)

/-- Claim C3: the `reloadWorksheet()` callback is invoked exactly once when
the content-upload PUT succeeds and never otherwise, and a failed PUT (after
a successful POST) raises exactly one alert and never invokes
`reloadWorksheet()`. -/
theorem c3_reload_iff_put_ok (props : Props) (file : Option SelectedFile)
    (beh : ServerBehavior) (s : ComponentState) :
    ((uploadEvents props file beh s).countP Event.isReload = 1 ↔
      (∃ f, file = some f) ∧ (∃ bundleUuid, beh.postResult = Except.ok bundleUuid) ∧
        beh.putResult = Except.ok ()) ∧
    (∀ f bundleUuid e, file = some f → beh.postResult = Except.ok bundleUuid →
      beh.putResult = Except.error e →
      (uploadEvents props file beh s).countP Event.isAlert = 1 ∧
      (uploadEvents props file beh s).countP Event.isReload = 0) := by
  obtain ⟨pr, qr⟩ := beh
  cases file with
  | none => cases pr <;> cases qr <;>
      simp [uploadEvents, uploadFile, List.countP, List.countP.go, Event.isReload]
  | some f => cases pr <;> cases qr <;>
      simp [uploadEvents, uploadFile, List.countP, List.countP.go,
        Event.isReload, Event.isAlert]

/-- Claim C3 at concrete inputs: one reload on PUT success; one alert and no
reload on PUT failure. -/
theorem c3_reload_iff_put_ok_witness :
    (uploadEvents ⟨"0xws", "0"⟩ (some ⟨"data.zip", [1]⟩)
        ⟨Except.ok "0xb", Except.ok ()⟩ initialState).countP Event.isReload = 1 ∧
    (uploadEvents ⟨"0xws", "0"⟩ (some ⟨"data.zip", [1]⟩)
        ⟨Except.ok "0xb", Except.error "boom"⟩ initialState).countP
          Event.isAlert = 1 ∧
    (uploadEvents ⟨"0xws", "0"⟩ (some ⟨"data.zip", [1]⟩)
        ⟨Except.ok "0xb", Except.error "boom"⟩ initialState).countP
          Event.isReload = 0 := by
  refine ⟨?_, ?_, ?_⟩
  · exact (c3_reload_iff_put_ok ⟨"0xws", "0"⟩ (some ⟨"data.zip", [1]⟩)
      ⟨Except.ok "0xb", Except.ok ()⟩ initialState).1.mpr
      ⟨⟨_, rfl⟩, ⟨"0xb", rfl⟩, rfl⟩
  · exact ((c3_reload_iff_put_ok ⟨"0xws", "0"⟩ (some ⟨"data.zip", [1]⟩)
      ⟨Except.ok "0xb", Except.error "boom"⟩ initialState).2 ⟨"data.zip", [1]⟩
      "0xb" "boom" rfl rfl rfl).1
  · exact ((c3_reload_iff_put_ok ⟨"0xws", "0"⟩ (some ⟨"data.zip", [1]⟩)
      ⟨Except.ok "0xb", Except.error "boom"⟩ initialState).2 ⟨"data.zip", [1]⟩
      "0xb" "boom" rfl rfl rfl).2

/-- Claim C4: when the metadata-creation POST fails, exactly one alert is
raised and the content-upload PUT request is never issued. -/
theorem c4_post_failure (props : Props) (f : SelectedFile)
    (beh : ServerBehavior) (s : ComponentState) (e : String)
    (h : beh.postResult = Except.error e) :
    (uploadEvents props (some f) beh s).countP Event.isAlert = 1 ∧
    (uploadEvents props (some f) beh s).countP Event.isPut = 0 := by
  obtain ⟨pr, qr⟩ := beh
  cases pr with
  | error e2 =>
      simp [uploadEvents, uploadFile, List.countP, List.countP.go,
        Event.isAlert, Event.isPut]
  | ok bundleUuid => exact absurd h (by simp)

/-- Claim C4 at a concrete input: a failed POST yields one alert and no
PUT. -/
theorem c4_post_failure_witness :
    (uploadEvents ⟨"0xws", "0"⟩ (some ⟨"data.zip", [1]⟩)
        ⟨Except.error "down", Except.ok ()⟩ initialState).countP
          Event.isAlert = 1 ∧
    (uploadEvents ⟨"0xws", "0"⟩ (some ⟨"data.zip", [1]⟩)
        ⟨Except.error "down", Except.ok ()⟩ initialState).countP
          Event.isPut = 0 :=
  c4_post_failure ⟨"0xws", "0"⟩ ⟨"data.zip", [1]⟩
    ⟨Except.error "down", Except.ok ()⟩ initialState "down" rfl

/-- Claim C5 evaluated at failing inputs.  The POST error handler calls
`createAlertText(this.url, ...)` and the PUT error handler calls
`createAlertText(reader.url, ...)`; `this.url` and `reader.url` are
unassigned properties, so both alerts carry the undefined value (`none`) in
the URL position instead of the failing request's URL, while they do carry
the server's raw error response text. -/
theorem c5_alert_url_undefined :
    (uploadEvents ⟨"0xws", "0"⟩ (some ⟨"data.zip", [1]⟩)
        ⟨Except.ok "0xb", Except.error "boom"⟩ initialState =
      [Event.postRequest (postUrl ⟨"0xws", "0"⟩)
          (getDefaultBundleMetadata "data.zip"),
        Event.putRequest (putUrl "0xb" "data.zip") [1],
        Event.alertRaised ⟨none, "boom", some "refresh and try again."⟩]) ∧
    (AlertText.mk none "boom" (some "refresh and try again.")).url ≠
      some (putUrl "0xb" "data.zip") ∧
    (uploadEvents ⟨"0xws", "0"⟩ (some ⟨"data.zip", [1]⟩)
        ⟨Except.error "down", Except.ok ()⟩ initialState =
      [Event.postRequest (postUrl ⟨"0xws", "0"⟩)
          (getDefaultBundleMetadata "data.zip"),
        Event.alertRaised ⟨none, "down", none⟩]) ∧
    (AlertText.mk none "down" none).url ≠ some (postUrl ⟨"0xws", "0"⟩) := by
  refine ⟨rfl, by simp, rfl, by simp⟩

/-- Claim C7: a null or undefined file makes `uploadFile` a no-op: no
events (hence no network request) and the component state unchanged. -/
theorem c7_null_file_noop (props : Props) (beh : ServerBehavior)
    (s : ComponentState) :
    uploadFile props none beh s = (s, []) := rfl

/-- Claim C9: `uploadFile` never mutates the form state: in every branch
(null file, POST failure, PUT success, PUT failure) the resulting component
state equals the initial one. -/
theorem c9_state_unchanged (props : Props) (file : Option SelectedFile)
    (beh : ServerBehavior) (s : ComponentState) :
    (uploadFile props file beh s).1 = s := by
  obtain ⟨pr, qr⟩ := beh
  cases file with
  | none => rfl
  | some f => cases pr <;> cases qr <;> rfl

end NewUpload
